import Mathlib

/-!
Shallow embedding of the connection/session layer of the pixi-boilerplate
repository:

* `src/WebSockets/WebSocketService.ts` — the transport wrapper
  (`WebSocketService` class: `connect`'s `onopen`/`onmessage` handlers,
  `send`, `on`, `off`, `once`);
* the session state store `GlobalState` (gameState.ts, found appended to
  `src/components/Toolbar.ts`, lines 179-481);
* the bootstrap helpers `checkForPendingGames` and `restorePendingGame`
  of `src/main.ts` (lines 456-537).

JavaScript values carried on the wire are modelled by the `Json` inductive
below; JS `undefined` for an absent member is modelled by `Option.none` of
the accessor.  JS numbers are modelled by `Int` (every numeric value the
embedded code manipulates is integral); where the code can produce `NaN`
(the `parseInt` paths), the affected quantity is an `Option Int` with
`none` standing for `NaN`/`undefined`.
-/

/-!
A JSON value as produced by `JSON.parse` (no `undefined` inside).
Arrays and objects carry their own mutually-inductive spines so that
every function over values is plain structural recursion.
-/
mutual
/-- A parsed JSON value. -/
inductive Json where
  | jnull
  | jbool (b : Bool)
  | jnum (n : Int)
  | jstr (s : String)
  | jarr (elems : JsonList)
  | jobj (fields : JsonFields)
/-- Spine of a JSON array. -/
inductive JsonList where
  | nil
  | cons (head : Json) (tail : JsonList)
/-- Spine of a JSON object. -/
inductive JsonFields where
  | nil
  | cons (key : String) (val : Json) (tail : JsonFields)
end

/-- Array spine from a Lean list. -/
def JsonList.ofList : List Json → JsonList
  | [] => .nil
  | x :: t => .cons x (JsonList.ofList t)

/-- Object spine from a Lean association list. -/
def JsonFields.ofList : List (String × Json) → JsonFields
  | [] => .nil
  | (k, v) :: t => .cons k v (JsonFields.ofList t)

/-- Array literal helper. -/
def jarrOf (xs : List Json) : Json := .jarr (JsonList.ofList xs)

/-- Object literal helper. -/
def jobjOf (fs : List (String × Json)) : Json := .jobj (JsonFields.ofList fs)

/-- JavaScript truthiness of a value (`if (v)`): `null`, `false`, `0` and
the empty string are falsy; arrays and objects are always truthy. -/
def jsTruthy : Json → Bool
  | .jnull => false
  | .jbool b => b
  | .jnum n => n != 0
  | .jstr s => s != ""
  | .jarr _ => true
  | .jobj _ => true

/-- First binding of a key in an object's field list (the parsed objects the
embedded code reads have distinct keys, so first-match lookup is exact). -/
def lookupField (fields : JsonFields) (k : String) : Option Json :=
  match fields with
  | .nil => none
  | .cons k2 v rest => if k2 = k then some v else lookupField rest k

/-- Member access `j.k`: a field of an object, `undefined` (`none`)
otherwise.  Access on `null` throws in JS; every such access in the
embedded code is either guarded or modelled explicitly at its use site. -/
def jsGetField (j : Json) (k : String) : Option Json :=
  match j with
  | .jobj fields => lookupField fields k
  | _ => none

/-- Escape of one character inside a JSON string literal, as
`JSON.stringify` performs it (the control characters that take a `\uXXXX`
form do not occur in any value the embedded code serializes). -/
def escapeChar (c : Char) : String :=
  if c = '"' then "\\\""
  else if c = '\\' then "\\\\"
  else if c = '\n' then "\\n"
  else if c = '\t' then "\\t"
  else if c = '\r' then "\\r"
  else String.singleton c

/-- Escape of a whole string body for `JSON.stringify`. -/
def escapeJson (s : String) : String :=
  String.join (s.toList.map escapeChar)

mutual
/-- `JSON.stringify` on a parsed value. -/
def jsonStringify : Json → String
  | .jnull => "null"
  | .jbool b => cond b "true" "false"
  | .jnum m => toString m
  | .jstr s => "\"" ++ escapeJson s ++ "\""
  | .jarr xs => "[" ++ stringifyElems xs ++ "]"
  | .jobj fields => "\x7b" ++ stringifyFields fields ++ "\x7d"
/-- Comma-joined serialization of array elements. -/
def stringifyElems : JsonList → String
  | .nil => ""
  | .cons x .nil => jsonStringify x
  | .cons x (.cons y t) => jsonStringify x ++ "," ++ stringifyElems (.cons y t)
/-- Comma-joined serialization of object members. -/
def stringifyFields : JsonFields → String
  | .nil => ""
  | .cons k v .nil => "\"" ++ escapeJson k ++ "\":" ++ jsonStringify v
  | .cons k v (.cons k2 v2 t) =>
      "\"" ++ escapeJson k ++ "\":" ++ jsonStringify v ++ "," ++
        stringifyFields (.cons k2 v2 t)
end

/-- A handler stored in the `listeners` map of `WebSocketService`.
Application callbacks are named by a `Nat` identifier; `onceWrap id key`
is the closure `once` builds around callback `id` (it captures the
registration `key` for its `off` call). -/
inductive HandlerV where
  | plain (id : Nat)
  | onceWrap (id : Nat) (key : String)
deriving DecidableEq

/-- The application-callback identifier behind a stored handler. -/
def handlerId : HandlerV → Nat
  | .plain id => id
  | .onceWrap id _ => id

/-- `Map.get` on the string-keyed listeners map. -/
def mapGet (l : List (String × HandlerV)) (k : String) : Option HandlerV :=
  match l with
  | [] => none
  | (k2, v) :: rest => if k2 = k then some v else mapGet rest k

/-- `Map.set`: replaces the value at an existing key in place, otherwise
appends (JS `Map` keeps insertion order). -/
def mapSet (l : List (String × HandlerV)) (k : String) (v : HandlerV) :
    List (String × HandlerV) :=
  match l with
  | [] => [(k, v)]
  | (k2, v2) :: rest =>
      if k2 = k then (k2, v) :: rest else (k2, v2) :: mapSet rest k v

/-- `Map.delete` on the listeners map. -/
def mapDelete (l : List (String × HandlerV)) (k : String) :
    List (String × HandlerV) :=
  match l with
  | [] => []
  | (k2, v) :: rest => if k2 = k then rest else (k2, v) :: mapDelete rest k

/-- State of one `WebSocketService` instance together with its observable
effects: `transmitted` is the sequence of frames handed to
`socket.send`, `calls` the sequence of application-callback invocations
(callback id, argument), `logoutCalls` the number of `window.logoutUser()`
invocations and `invalidLogged` the number of times the `onmessage`
`catch` block ran.  `socketOpen` models `socket.readyState === OPEN`;
`logoutAvailable` models whether the host page defined
`window.logoutUser`. -/
structure SvcState where
  isConnected : Bool
  socketOpen : Bool
  listeners : List (String × HandlerV)
  queue : List (String × Json)
  transmitted : List String
  calls : List (Nat × Json)
  logoutAvailable : Bool
  logoutCalls : Nat
  invalidLogged : Nat

/-- A fresh service right after construction, before `onopen`
(`isConnected = false`, empty queue and listener map). -/
def freshSvc : SvcState :=
  { isConnected := false, socketOpen := false, listeners := [], queue := [],
    transmitted := [], calls := [], logoutAvailable := true, logoutCalls := 0,
    invalidLogged := 0 }

/-- `send(event, data)` (WebSocketService.ts lines 92-99): serialize the
`data` argument only; transmit when connected and the socket is open,
otherwise push `{event, data}` onto the outbound queue. -/
def wsSend (st : SvcState) (event : String) (data : Json) : SvcState :=
  if st.isConnected && st.socketOpen then
    { st with transmitted := st.transmitted ++ [jsonStringify data] }
  else
    { st with queue := st.queue ++ [(event, data)] }

/-- The `while (this.queue.length > 0)` drain loop of the `onopen` handler
(lines 44-47): shift the head and re-`send` it.  The loop is embedded
with explicit fuel; `onOpen` supplies the queue length, which is exactly
the number of iterations the loop performs when the socket is open. -/
def flushLoop : Nat → SvcState → SvcState
  | 0, st => st
  | n + 1, st =>
      match st.queue with
      | [] => st
      | m :: rest => flushLoop n (wsSend { st with queue := rest } m.1 m.2)

/-- The `onopen` handler (lines 41-48): mark connected, then drain the
queue.  The browser sets `readyState` to `OPEN` before dispatching
`onopen`, modelled by setting `socketOpen` here. -/
def onOpen (st : SvcState) : SvcState :=
  let st1 := { st with isConnected := true, socketOpen := true }
  flushLoop st1.queue.length st1

/-- `on(event, callback)` (lines 101-103): `listeners.set` — a later
registration for the same key replaces the earlier handler. -/
def wsOn (st : SvcState) (event : String) (h : HandlerV) : SvcState :=
  { st with listeners := mapSet st.listeners event h }

/-- `off(event)` (lines 105-107): `listeners.delete`. -/
def wsOff (st : SvcState) (event : String) : SvcState :=
  { st with listeners := mapDelete st.listeners event }

/-- `once(event, callback)` (lines 109-115): registers the wrapper that
calls the callback and then `off(event)`. -/
def wsOnce (st : SvcState) (event : String) (id : Nat) : SvcState :=
  wsOn st event (.onceWrap id event)

/-- The session-expiry test of `onmessage` (line 55):
`msg.data && msg.data.status === "401 Session Expired"`. -/
def isExpiryFrame (msg : Json) : Bool :=
  match jsGetField msg "data" with
  | some d =>
      jsTruthy d &&
        match jsGetField d "status" with
        | some (.jstr s) => s == "401 Session Expired"
        | _ => false
  | none => false

/-- The `info`-interception test of `onmessage` (line 64):
`msg.operation === "info" && msg.mineSweeperAmounts &&
Array.isArray(msg.mineSweeperAmounts)`.  Note the amounts are read from
the top level of the frame, not from `msg.data`. -/
def isInfoIntercept (msg : Json) : Bool :=
  (match jsGetField msg "operation" with
   | some (.jstr s) => s == "info"
   | _ => false) &&
  (match jsGetField msg "mineSweeperAmounts" with
   | some (.jarr _) => true
   | _ => false)

/-- The dispatch key of a frame (line 69): `msg.event || msg.operation`,
then used only when truthy and present in the string-keyed listeners map
(a non-string key never matches a registration made through `on`, so it
is folded into `none`). -/
def dispatchKey (msg : Json) : Option String :=
  let keyVal : Option Json :=
    match jsGetField msg "event" with
    | some v => if jsTruthy v then some v else jsGetField msg "operation"
    | none => jsGetField msg "operation"
  match keyVal with
  | some (.jstr k) => if k == "" then none else some k
  | _ => none

/-- The argument handed to a dispatched handler (line 71):
`msg.data || msg`. -/
def payloadOf (msg : Json) : Json :=
  match jsGetField msg "data" with
  | some d => if jsTruthy d then d else msg
  | none => msg

/-- Invocation of a stored handler with `payload`.  `thr` tells which
application callbacks throw when run: a throw propagates to the
`onmessage` `try`/`catch` (so the `once` wrapper's `off` step is skipped
and the catch block logs). -/
def invokeHandler (thr : Nat → Bool) (h : HandlerV) (payload : Json)
    (st : SvcState) : SvcState :=
  match h with
  | .plain id =>
      let st1 := { st with calls := st.calls ++ [(id, payload)] }
      if thr id then { st1 with invalidLogged := st1.invalidLogged + 1 } else st1
  | .onceWrap id key =>
      let st1 := { st with calls := st.calls ++ [(id, payload)] }
      if thr id then { st1 with invalidLogged := st1.invalidLogged + 1 }
      else { st1 with listeners := mapDelete st1.listeners key }

/-- The `onmessage` handler (lines 50-76) applied to an already-parsed
frame.  Order of the source: session-expiry check (return, after calling
`window.logoutUser` when the host defined it), then the `info`
interception, then dispatch through the listeners map.

The `info` branch calls `GlobalState.setBetSteps(...)`, but the
`GlobalState` object (gameState.ts, Toolbar.ts lines 429-481) exports no
`setBetSteps` member, so that member call throws a `TypeError` which the
surrounding `try`/`catch` swallows (`Invalid message` is logged and the
frame is discarded before dispatch).  A `null` frame likewise throws at
the `msg.data` access. -/
def onMessage (thr : Nat → Bool) (msg : Json) (st : SvcState) : SvcState :=
  match msg with
  | .jnull => { st with invalidLogged := st.invalidLogged + 1 }
  | _ =>
    if isExpiryFrame msg then
      if st.logoutAvailable then { st with logoutCalls := st.logoutCalls + 1 }
      else st
    else if isInfoIntercept msg then
      { st with invalidLogged := st.invalidLogged + 1 }
    else
      match dispatchKey msg with
      | none => st
      | some k =>
          match mapGet st.listeners k with
          | none => st
          | some h => invokeHandler thr h (payloadOf msg) st

/-!
The session state store `GlobalState` (gameState.ts, appended to
`src/components/Toolbar.ts`, lines 179-481).  Listener callbacks are
named by `Nat` identifiers; registries keep them in registration order,
and `invoked` is the chronological log of listener invocations (every
listener call in the source is wrapped in its own `try`/`catch`, so a
throwing listener is still recorded and does not stop the ones after
it).  The returned unsubscribe closures are not exercised by any claim
and are not modelled.  `total_rows`, `total_cols` and `current_row` are
`Option Int` because the grid-restoration path can write `NaN` into
them (`none` stands for `NaN`/`undefined`); the remaining numeric
attributes only ever receive genuine numbers.
-/
structure GameState where
  token : Option String := none
  total_rows : Option Int := some 6
  total_cols : Option Int := some 5
  current_row : Option Int := some 5
  game_matrix : List (List String) := []
  balance : Int := 1000000
  stakeAmount : Int := 1
  roundId : Option String := none
  reward : Int := 0
  gameStarted : Bool := false
  gameStartedListeners : List Nat := []
  gameEndedListeners : List Nat := []
  balanceChangeListeners : List Nat := []
  gridDimensionChangeListeners : List Nat := []
  pendingGameRestoreListeners : List Nat := []
  pendingGameRestoreCompleteListeners : List Nat := []
  invoked : List Nat := []
deriving DecidableEq

/-- The store as initialized at module load (DEFAULT_ROWS = 6,
DEFAULT_COLS = 5, current row = DEFAULT_ROWS - 1, DEFAULT_BALANCE,
DEFAULT_STAKE = 1.00). -/
def initialGameState : GameState := {}

/-- JS strict inequality `a !== b` between two possibly-`NaN` numbers:
`NaN !== x` is true for every `x`, including `NaN` itself. -/
def jsNumNe (a b : Option Int) : Bool :=
  match a, b with
  | some x, some y => x != y
  | _, _ => true

/-- `NaN`-propagating subtraction. -/
def jsSub (a b : Option Int) : Option Int :=
  match a, b with
  | some x, some y => some (x - y)
  | _, _ => none

/-- `setGameStarted(started)` (Toolbar.ts lines 201-229): store the flag;
fire every game-started listener when transitioning to `true` from
`false`, every game-ended listener when transitioning to `false` from
`true`; fire nothing otherwise. -/
def setGameStarted (started : Bool) (s : GameState) : GameState :=
  let wasStarted := s.gameStarted
  let s1 := { s with gameStarted := started }
  let s2 :=
    if started && !wasStarted then
      { s1 with invoked := s1.invoked ++ s1.gameStartedListeners }
    else s1
  if !started && wasStarted then
    { s2 with invoked := s2.invoked ++ s2.gameEndedListeners }
  else s2

/-- `addGameStartedListener` (lines 235-247): push onto the registry. -/
def addGameStartedListener (id : Nat) (s : GameState) : GameState :=
  { s with gameStartedListeners := s.gameStartedListeners ++ [id] }

/-- `addGameEndedListener` (lines 249-261). -/
def addGameEndedListener (id : Nat) (s : GameState) : GameState :=
  { s with gameEndedListeners := s.gameEndedListeners ++ [id] }

/-- `setBalance(balance)` (lines 263-272): store, then fire the
balance-change listeners only when the value changed. -/
def setBalance (balance : Int) (s : GameState) : GameState :=
  let previousBalance := s.balance
  let s1 := { s with balance := balance }
  if previousBalance != balance then
    { s1 with invoked := s1.invoked ++ s1.balanceChangeListeners }
  else s1

/-- `addBalanceChangeListener` (lines 289-301). -/
def addBalanceChangeListener (id : Nat) (s : GameState) : GameState :=
  { s with balanceChangeListeners := s.balanceChangeListeners ++ [id] }

/-- `setGridDimensions(cols, rows)` (lines 307-327): store both, then fire
the grid-dimension listeners only if either value changed under JS
`!==`. -/
def setGridDimensions (cols rows : Option Int) (s : GameState) : GameState :=
  let prevCols := s.total_cols
  let prevRows := s.total_rows
  let s1 := { s with total_cols := cols, total_rows := rows }
  if jsNumNe prevCols cols || jsNumNe prevRows rows then
    { s1 with invoked := s1.invoked ++ s1.gridDimensionChangeListeners }
  else s1

/-- `addGridDimensionChangeListener` (lines 329-341). -/
def addGridDimensionChangeListener (id : Nat) (s : GameState) : GameState :=
  { s with gridDimensionChangeListeners := s.gridDimensionChangeListeners ++ [id] }

/-- `setStakeAmount(amount)` (lines 343-346): unconditional. -/
def setStakeAmount (amount : Int) (s : GameState) : GameState :=
  { s with stakeAmount := amount }

/-- `setRoundId(roundId)` (lines 352-355): unconditional; the caller in
main.ts passes `gameData?.roundId`, which may be `undefined` (`none`). -/
def setRoundId (roundId : Option String) (s : GameState) : GameState :=
  { s with roundId := roundId }

/-- `setCurrentRow(row)` (lines 361-364): unconditional. -/
def setCurrentRow (row : Option Int) (s : GameState) : GameState :=
  { s with current_row := row }

/-- `setGameMatrix(matrix)` (lines 370-373): unconditional. -/
def setGameMatrix (matrix : List (List String)) (s : GameState) : GameState :=
  { s with game_matrix := matrix }

/-- `setReward(newReward)` (lines 375-378): unconditional. -/
def setReward (newReward : Int) (s : GameState) : GameState :=
  { s with reward := newReward }

/-- `addPendingGameRestoreListener(listener)` (Toolbar.ts lines 394-406):
push onto the pending-restore registry. -/
def addPendingGameRestoreListener (id : Nat) (s : GameState) : GameState :=
  { s with pendingGameRestoreListeners := s.pendingGameRestoreListeners ++ [id] }

/-- `addPendingGameRestoreCompleteListener(listener)` (lines 409-421). -/
def addPendingGameRestoreCompleteListener (id : Nat) (s : GameState) : GameState :=
  { s with
      pendingGameRestoreCompleteListeners :=
        s.pendingGameRestoreCompleteListeners ++ [id] }

/-- `triggerPendingGameRestore()` (Toolbar.ts lines 424-427): the body is
a single `console.log` and the comment "This can be extended later if
needed" — it reads no registry and invokes nothing, so the store is
returned unchanged. -/
def triggerPendingGameRestore (s : GameState) : GameState := s

/-!
The pending-game bootstrap of `src/main.ts`: `checkForPendingGames`
(lines 456-500, the `minesweeper_game_load` response handler) and
`restorePendingGame` (lines 503-537).  The server response `res` is the
dynamic record delivered to the handler; the members the code reads are
modelled as optional typed fields, `none` standing for an absent
(`undefined`) member.
-/
structure GameLoadData where
  status : Option String := none
  hasExistingGame : Option Bool := none
  roundId : Option String := none
  currentRow : Option Int := none
  gridOption : Option String := none
  betAmount : Option Int := none
  revealedMatrix : Option (List (List String)) := none
  rowRewards : Option (List Int) := none
  gameOver : Option Bool := none
deriving DecidableEq

/-- Value of one digit character, as `parseInt` reads digits in bases up
to 36 (letters case-insensitive). -/
def digitVal (c : Char) : Option Nat :=
  if '0' ≤ c ∧ c ≤ '9' then some (c.toNat - '0'.toNat)
  else if 'a' ≤ c ∧ c ≤ 'z' then some (c.toNat - 'a'.toNat + 10)
  else if 'A' ≤ c ∧ c ≤ 'Z' then some (c.toNat - 'A'.toNat + 10)
  else none

/-- Longest prefix of digits valid in `base`; `none` when no digit was
consumed (`parseInt` returns `NaN` then). -/
def parseDigitsAux (base : Nat) : List Char → Nat → Bool → Option Nat
  | [], acc, seen => if seen then some acc else none
  | c :: rest, acc, seen =>
      match digitVal c with
      | some v =>
          if v < base then parseDigitsAux base rest (acc * base + v) true
          else if seen then some acc else none
      | none => if seen then some acc else none

/-- `parseInt(string)` with no radix argument, as the call site invokes
it: skip leading whitespace, read an optional sign, then the longest
decimal-digit prefix; `NaN` (`none`) when no digit is consumed.  The
`0x` hex prefix cannot reach this call site — the argument is a piece of
a string split on the character `x` — and is not modelled. -/
def jsParseInt (s : String) : Option Int :=
  let cs := s.toList.dropWhile Char.isWhitespace
  match cs with
  | '-' :: rest => (parseDigitsAux 10 rest 0 false).map (fun n => -(n : Int))
  | '+' :: rest => (parseDigitsAux 10 rest 0 false).map (fun n => (n : Int))
  | _ => (parseDigitsAux 10 cs 0 false).map (fun n => (n : Int))

/-- `String.prototype.split` with a one-character separator. -/
def splitOnCharAux (sep : Char) : List Char → List Char → List (List Char)
  | [], acc => [acc.reverse]
  | c :: rest, acc =>
      if c = sep then acc.reverse :: splitOnCharAux sep rest []
      else splitOnCharAux sep rest (c :: acc)

/-- JS `s.split(sep)` for a single-character separator. -/
def jsSplitChar (s : String) (sep : Char) : List String :=
  (splitOnCharAux sep s.toList []).map (fun cs => String.mk cs)

/-- The grid parse of `restorePendingGame` (main.ts line 509):
`gridOption.split("x").map((x: string) => parseInt(x))` destructured as
`[cols, rows]` — the arrow wrapper passes only the element, so every
piece is parsed by `parseInt` in base 10.  A missing element
destructures to `undefined`; `none` covers both `undefined` and a
`NaN` parse of a malformed piece. -/
def parseGridOption (g : String) : Option Int × Option Int :=
  let nums := (jsSplitChar g 'x').map (fun x => jsParseInt x)
  ((nums.get? 0).getD none, (nums.get? 1).getD none)

/-!
`restorePendingGame(gameData)` (main.ts lines 503-537), applied to the
store: matrix if the member is present, grid dimensions if `gridOption`
is truthy, stake if `betAmount` is truthy (0 is falsy), round id always,
derived current row = `GlobalState.total_rows - 1 - gameData.currentRow`
if the reported row is defined (reading the rows value already updated
by the grid step), reward = last element of a present non-empty
`rowRewards` (else 0), then `gameStarted = true`.  Each guarded
statement of the source body is one step definition below;
`restorePendingGame` composes them in source order.  The source defers
`triggerPendingGameRestore()` by 500 ms; the trigger is a state-less
placeholder, so it is composed directly.
-/

/-- Lines 504-506: `if (gameData?.revealedMatrix) setGameMatrix(...)`. -/
def restoreMatrixStep (gameData : GameLoadData) (s : GameState) : GameState :=
  match gameData.revealedMatrix with
  | some m => setGameMatrix m s
  | none => s

/-- Lines 508-511: `if (gameData?.gridOption)` parse and
`setGridDimensions(cols, rows)`; the empty string is falsy. -/
def restoreGridStep (gameData : GameLoadData) (s : GameState) : GameState :=
  match gameData.gridOption with
  | some g =>
      if g = "" then s
      else setGridDimensions (parseGridOption g).1 (parseGridOption g).2 s
  | none => s

/-- Lines 513-515: `if (gameData?.betAmount) setStakeAmount(...)`; the
number 0 is falsy. -/
def restoreBetStep (gameData : GameLoadData) (s : GameState) : GameState :=
  match gameData.betAmount with
  | some b => if b = 0 then s else setStakeAmount b s
  | none => s

/-- Lines 519-522: `if (gameData.currentRow !== undefined)` derive
`GlobalState.total_rows - 1 - gameData.currentRow` and store it. -/
def restoreRowStep (gameData : GameLoadData) (s : GameState) : GameState :=
  match gameData.currentRow with
  | some r => setCurrentRow (jsSub (jsSub s.total_rows (some 1)) (some r)) s
  | none => s

/-- Lines 525-528: the derived reward — last element of a present
non-empty `rowRewards` (`|| 0` folds a trailing 0 to itself), else 0. -/
def calculatedReward (gameData : GameLoadData) : Int :=
  match gameData.rowRewards with
  | some l => if l.length > 0 then (l.getLast?).getD 0 else 0
  | none => 0

/-- The whole of `restorePendingGame`, steps composed in source order. -/
def restorePendingGame (gameData : GameLoadData) (s : GameState) : GameState :=
  triggerPendingGameRestore
    (setGameStarted true
      (setReward (calculatedReward gameData)
        (restoreRowStep gameData
          (setRoundId gameData.roundId
            (restoreBetStep gameData
              (restoreGridStep gameData
                (restoreMatrixStep gameData s)))))))

/-- `GlobalState.total_rows || 6` (main.ts line 478): `0` and `NaN` are
falsy, so they fall back to 6. -/
def jsRowsOrSix (rows : Option Int) : Int :=
  match rows with
  | some n => if n = 0 then 6 else n
  | none => 6

/-- The `minesweeper_game_load` response handler of `checkForPendingGames`
(main.ts lines 467-499).  The returned `Bool` is the value the handler
resolves the surrounding promise with; the returned store reflects any
restoration performed.  Classification for a `"200 OK"` response with an
existing game: `backendCurrentRow = res?.currentRow || 0`;
`totalRows = GlobalState.total_rows || 6`; the game counts as completed
when `backendCurrentRow >= totalRows - 1` or `res?.gameOver === true`;
the round id is valid when present, non-null and non-empty; restoration
runs only when the game is not completed and the round id is valid.
The two local booleans of the handler are lifted into the named
definitions below.

The local `isGameCompleted` (main.ts lines 477-479):
`backendCurrentRow >= (totalRows - 1) || res?.gameOver === true`. -/
def isGameCompletedJs (res : GameLoadData) (s : GameState) : Bool :=
  decide (res.currentRow.getD 0 ≥ jsRowsOrSix s.total_rows - 1)
    || (res.gameOver == some true)

/-- The local `hasValidRoundId` (main.ts line 480):
`res?.roundId && res?.roundId !== null && res?.roundId !== ''` — present,
non-null and non-empty. -/
def hasValidRoundIdJs (res : GameLoadData) : Bool :=
  match res.roundId with
  | some rid => rid != ""
  | none => false

/-- The branch structure of the handler (main.ts lines 470-497). -/
def checkForPendingGames (res : GameLoadData) (s : GameState) :
    Bool × GameState :=
  if res.status == some "400" then (false, s)
  else if res.status == some "200 OK" then
    if res.hasExistingGame == some true then
      if isGameCompletedJs res s || !hasValidRoundIdJs res then (false, s)
      else (true, restorePendingGame res s)
    else (false, s)
  else (false, s)

/-!
Helper lemmas about the listeners map, handler invocation and the
outbound queue.
-/

theorem mapGet_mapSet (l : List (String × HandlerV)) (k k2 : String)
    (v : HandlerV) :
    mapGet (mapSet l k v) k2 = if k2 = k then some v else mapGet l k2 := by
  induction l with
  | nil =>
      by_cases h : k2 = k
      · subst h; simp [mapSet, mapGet]
      · simp [mapSet, mapGet, h, Ne.symm h]
  | cons p rest ih =>
      rcases p with ⟨ks, vs⟩
      by_cases hk : ks = k
      · subst hk
        by_cases h2 : k2 = ks
        · subst h2; simp [mapSet, mapGet]
        · simp [mapSet, mapGet, h2, Ne.symm h2]
      · by_cases h2 : k2 = ks
        · subst h2
          simp [mapSet, mapGet, hk]
        · simp [mapSet, mapGet, hk, h2, Ne.symm h2, ih]

theorem mapGet_eq_none_of_not_mem (l : List (String × HandlerV)) (k : String)
    (h : k ∉ l.map Prod.fst) : mapGet l k = none := by
  induction l with
  | nil => rfl
  | cons p rest ih =>
      rcases p with ⟨ks, vs⟩
      simp only [List.map_cons, List.mem_cons, not_or] at h
      show (if ks = k then some vs else mapGet rest k) = none
      rw [if_neg (Ne.symm h.1)]
      exact ih h.2

theorem mem_keys_mapSet (l : List (String × HandlerV)) (k k2 : String)
    (v : HandlerV) (h : k2 ∈ (mapSet l k v).map Prod.fst) :
    k2 ∈ l.map Prod.fst ∨ k2 = k := by
  induction l with
  | nil =>
      simp [mapSet] at h
      exact Or.inr h
  | cons p rest ih =>
      rcases p with ⟨ks, vs⟩
      by_cases hk : ks = k
      · simp only [mapSet, if_pos hk, List.map_cons] at h
        exact Or.inl h
      · simp only [mapSet, if_neg hk, List.map_cons, List.mem_cons] at h
        rcases h with h | h
        · exact Or.inl (List.mem_cons.mpr (Or.inl h))
        · rcases ih h with h2 | h2
          · exact Or.inl (List.mem_cons.mpr (Or.inr h2))
          · exact Or.inr h2

theorem keysNodup_mapSet (l : List (String × HandlerV)) (k : String)
    (v : HandlerV) (h : (l.map Prod.fst).Nodup) :
    ((mapSet l k v).map Prod.fst).Nodup := by
  induction l with
  | nil => simp [mapSet]
  | cons p rest ih =>
      rcases p with ⟨ks, vs⟩
      rw [List.map_cons, List.nodup_cons] at h
      by_cases hk : ks = k
      · simp only [mapSet, if_pos hk, List.map_cons, List.nodup_cons]
        exact h
      · simp only [mapSet, if_neg hk, List.map_cons, List.nodup_cons]
        refine ⟨?_, ih h.2⟩
        intro hmem
        rcases mem_keys_mapSet rest k ks v hmem with h2 | h2
        · exact h.1 h2
        · exact hk h2

theorem mapGet_mapDelete_self (l : List (String × HandlerV)) (k : String)
    (h : (l.map Prod.fst).Nodup) : mapGet (mapDelete l k) k = none := by
  induction l with
  | nil => rfl
  | cons p rest ih =>
      rcases p with ⟨ks, vs⟩
      rw [List.map_cons, List.nodup_cons] at h
      by_cases hk : ks = k
      · subst hk
        simp only [mapDelete, if_pos rfl]
        exact mapGet_eq_none_of_not_mem rest ks h.1
      · simp only [mapDelete, if_neg hk]
        show (if ks = k then some vs else mapGet (mapDelete rest k) k) = none
        rw [if_neg hk]
        exact ih h.2

theorem invokeHandler_calls (thr : Nat → Bool) (h : HandlerV) (p : Json)
    (st : SvcState) :
    (invokeHandler thr h p st).calls = st.calls ++ [(handlerId h, p)] := by
  cases h <;> simp only [invokeHandler, handlerId] <;> split <;> rfl

/-- A sequence of `send(event, data)` calls applied in order. -/
def sendAll (st : SvcState) (msgs : List (String × Json)) : SvcState :=
  msgs.foldl (fun s m => wsSend s m.1 m.2) st

theorem sendAll_closed (msgs : List (String × Json)) :
    ∀ st : SvcState, (st.isConnected && st.socketOpen) = false →
      sendAll st msgs = { st with queue := st.queue ++ msgs } := by
  induction msgs with
  | nil => intro st h; simp [sendAll]
  | cons m ms ih =>
      intro st h
      have hsend : wsSend st m.1 m.2 = { st with queue := st.queue ++ [m] } := by
        simp [wsSend, h]
      have hstep : sendAll st (m :: ms) = sendAll (wsSend st m.1 m.2) ms := rfl
      rw [hstep, hsend, ih _ (by exact h)]
      simp

theorem flushLoop_open (q : List (String × Json)) :
    ∀ st : SvcState, st.isConnected = true → st.socketOpen = true →
      st.queue = q →
      flushLoop q.length st =
        { st with queue := [],
                  transmitted :=
                    st.transmitted ++ q.map (fun m => jsonStringify m.2) } := by
  induction q with
  | nil =>
      intro st h1 h2 h3
      cases st
      simp_all [flushLoop]
  | cons m ms ih =>
      intro st h1 h2 h3
      have hstep : flushLoop (ms.length + 1) st
          = flushLoop ms.length (wsSend { st with queue := ms } m.1 m.2) := by
        simp [flushLoop, h3]
      have hsend : wsSend { st with queue := ms } m.1 m.2
          = { st with queue := ms,
                      transmitted := st.transmitted ++ [jsonStringify m.2] } := by
        simp [wsSend, h1, h2]
      have hlen : (m :: ms).length = ms.length + 1 := rfl
      rw [hlen, hstep, hsend, ih _ (by exact h1) (by exact h2) rfl]
      simp

theorem onOpen_spec (st : SvcState) :
    onOpen st =
      { st with isConnected := true, socketOpen := true, queue := [],
                transmitted :=
                  st.transmitted ++ st.queue.map (fun m => jsonStringify m.2) } := by
  exact flushLoop_open st.queue
    { st with isConnected := true, socketOpen := true } rfl rfl rfl

theorem onMessage_calls_cases (thr : Nat → Bool) (msg : Json) (st : SvcState) :
    (onMessage thr msg st).calls = st.calls ∨
    ∃ k h, dispatchKey msg = some k ∧ mapGet st.listeners k = some h ∧
      (onMessage thr msg st).calls
        = st.calls ++ [(handlerId h, payloadOf msg)] := by
  cases msg with
  | jnull => exact Or.inl rfl
  | jobj fields =>
      by_cases he : isExpiryFrame (Json.jobj fields)
      · by_cases hl : st.logoutAvailable <;> simp [onMessage, he, hl]
      · by_cases hi : isInfoIntercept (Json.jobj fields)
        · simp [onMessage, he, hi]
        · cases hk : dispatchKey (Json.jobj fields) with
          | none => simp [onMessage, he, hi, hk]
          | some k =>
              cases hh : mapGet st.listeners k with
              | none => simp [onMessage, he, hi, hk, hh]
              | some h =>
                  refine Or.inr ⟨k, h, rfl, hh, ?_⟩
                  have hred : onMessage thr (Json.jobj fields) st
                      = invokeHandler thr h (payloadOf (Json.jobj fields)) st := by
                    simp [onMessage, he, hi, hk, hh]
                  rw [hred]
                  exact invokeHandler_calls thr h _ st
  | jbool b => exact Or.inl rfl
  | jnum n => exact Or.inl rfl
  | jstr s => exact Or.inl rfl
  | jarr xs => exact Or.inl rfl

/-!
The claims.
-/

/-- Store with one pending-restore listener registered (id 7). -/
def c1State : GameState := addPendingGameRestoreListener 7 initialGameState

/-- C1, counterexample: a callback registered through
`addPendingGameRestoreListener` is NOT fired by
`triggerPendingGameRestore()` — with listener 7 registered, the call
leaves the invocation log unchanged instead of appending the listener. -/
theorem c1_trigger_counterexample :
    c1State.pendingGameRestoreListeners = [7] ∧
    ¬ (triggerPendingGameRestore c1State).invoked
        = c1State.invoked ++ [7] := by
  refine ⟨rfl, ?_⟩
  decide

/-- C1, amended: `triggerPendingGameRestore()` is a logging-only
placeholder — it invokes no registered pending-restore listener and
leaves the store entirely unchanged. -/
theorem c1_trigger_is_noop (s : GameState) :
    triggerPendingGameRestore s = s ∧
    (triggerPendingGameRestore s).invoked = s.invoked :=
  ⟨rfl, rfl⟩

/-- A `200 OK` restoration payload with every optional member present. -/
def c3Response : GameLoadData :=
  { status := some "200 OK", hasExistingGame := some true,
    roundId := some "ROUND-1", currentRow := some 2, gridOption := some "5x6",
    betAmount := some 1, rowRewards := some [10, 20, 35],
    revealedMatrix := some [["G", "S"], ["S", "G"]] }

/-- The same payload without a grid encoding. -/
def c3NoGrid : GameLoadData :=
  { roundId := some "ROUND-1", currentRow := some 2,
    rowRewards := some [10, 20, 35] }

/-- A payload with an empty reward-per-row list. -/
def c3NoRewards : GameLoadData :=
  { roundId := some "ROUND-1", rowRewards := some [] }

/-- Flat form of `setGridDimensions`: the listener-firing condition only
affects the invocation log. -/
theorem setGridDimensions_eq (cols rows : Option Int) (s : GameState) :
    setGridDimensions cols rows s =
      { s with total_cols := cols, total_rows := rows,
               invoked :=
                 if jsNumNe s.total_cols cols || jsNumNe s.total_rows rows
                 then s.invoked ++ s.gridDimensionChangeListeners
                 else s.invoked } := by
  unfold setGridDimensions
  split <;> simp_all

/-- Flat form of `setGameStarted true`. -/
theorem setGameStarted_true_eq (s : GameState) :
    setGameStarted true s =
      { s with gameStarted := true,
               invoked :=
                 if s.gameStarted then s.invoked
                 else s.invoked ++ s.gameStartedListeners } := by
  unfold setGameStarted
  cases hs : s.gameStarted <;> simp [hs]

/-- Projections of the bootstrap tail
`trigger (setGameStarted true (setReward c x))`. -/
theorem restoreTail_proj (c : Int) (x : GameState) :
    (triggerPendingGameRestore (setGameStarted true (setReward c x))).gameStarted
      = true ∧
    (triggerPendingGameRestore (setGameStarted true (setReward c x))).reward
      = c ∧
    (triggerPendingGameRestore (setGameStarted true (setReward c x))).game_matrix
      = x.game_matrix ∧
    (triggerPendingGameRestore (setGameStarted true (setReward c x))).total_cols
      = x.total_cols ∧
    (triggerPendingGameRestore (setGameStarted true (setReward c x))).total_rows
      = x.total_rows ∧
    (triggerPendingGameRestore (setGameStarted true (setReward c x))).stakeAmount
      = x.stakeAmount ∧
    (triggerPendingGameRestore (setGameStarted true (setReward c x))).roundId
      = x.roundId ∧
    (triggerPendingGameRestore (setGameStarted true (setReward c x))).current_row
      = x.current_row := by
  rw [triggerPendingGameRestore, setGameStarted_true_eq]
  exact ⟨rfl, rfl, rfl, rfl, rfl, rfl, rfl, rfl⟩

/-- The matrix step stores a present matrix. -/
theorem restoreMatrixStep_sets (gd : GameLoadData) (s : GameState) (m : List (List String))
    (hm : gd.revealedMatrix = some m) :
    (restoreMatrixStep gd s).game_matrix = m := by
  simp only [restoreMatrixStep, hm]
  rfl

/-- The grid step stores the parsed dimensions of a present non-empty
encoding. -/
theorem restoreGridStep_sets (gd : GameLoadData) (s : GameState) (g : String)
    (hg : gd.gridOption = some g) (hne : g ≠ "") :
    (restoreGridStep gd s).total_cols = (parseGridOption g).1 ∧
    (restoreGridStep gd s).total_rows = (parseGridOption g).2 := by
  simp only [restoreGridStep, hg]
  rw [if_neg hne, setGridDimensions_eq]
  exact ⟨rfl, rfl⟩

/-- The grid step touches neither the matrix nor the listener-free
fields other than the dimensions. -/
theorem restoreGridStep_game_matrix (gd : GameLoadData) (s : GameState) :
    (restoreGridStep gd s).game_matrix = s.game_matrix := by
  cases hgo : gd.gridOption with
  | none => simp only [restoreGridStep, hgo]
  | some g =>
      simp only [restoreGridStep, hgo]
      by_cases hne : g = ""
      · rw [if_pos hne]
      · rw [if_neg hne, setGridDimensions_eq]

/-- The bet step stores a present non-zero stake. -/
theorem restoreBetStep_sets (gd : GameLoadData) (s : GameState) (b : Int)
    (hb : gd.betAmount = some b) (hbne : b ≠ 0) :
    (restoreBetStep gd s).stakeAmount = b := by
  simp only [restoreBetStep, hb]
  rw [if_neg hbne]
  rfl

/-- The bet step leaves the matrix and the grid dimensions alone. -/
theorem restoreBetStep_preserves (gd : GameLoadData) (s : GameState) :
    (restoreBetStep gd s).game_matrix = s.game_matrix ∧
    (restoreBetStep gd s).total_cols = s.total_cols ∧
    (restoreBetStep gd s).total_rows = s.total_rows := by
  cases hba : gd.betAmount with
  | none => simp [restoreBetStep, hba]
  | some b =>
      simp only [restoreBetStep, hba]
      by_cases hb0 : b = 0
      · rw [if_pos hb0]
        exact ⟨rfl, rfl, rfl⟩
      · rw [if_neg hb0]
        exact ⟨rfl, rfl, rfl⟩

/-- The row step stores the inverted row index derived from the row
count it reads. -/
theorem restoreRowStep_sets (gd : GameLoadData) (s : GameState) (r : Int)
    (hr : gd.currentRow = some r) :
    (restoreRowStep gd s).current_row
      = jsSub (jsSub s.total_rows (some 1)) (some r) := by
  simp only [restoreRowStep, hr]
  rfl

/-- The row step changes only the current row. -/
theorem restoreRowStep_preserves (gd : GameLoadData) (s : GameState) :
    (restoreRowStep gd s).game_matrix = s.game_matrix ∧
    (restoreRowStep gd s).total_cols = s.total_cols ∧
    (restoreRowStep gd s).total_rows = s.total_rows ∧
    (restoreRowStep gd s).stakeAmount = s.stakeAmount ∧
    (restoreRowStep gd s).roundId = s.roundId := by
  cases hcr : gd.currentRow with
  | none => simp [restoreRowStep, hcr]
  | some r =>
      simp only [restoreRowStep, hcr]
      exact ⟨rfl, rfl, rfl, rfl, rfl⟩

/-- C3: `restorePendingGame` applies the restoration payload field by
field: the matrix when present, the grid dimensions parsed from the
`"COLSxROWS"` encoding when present, the stake when present, the round
id always, the derived current row `totalRows - 1 - reportedRow`
(computed from the already-updated row count — the grid step precedes
the row derivation), the reward as the last element of a present
non-empty reward list and `0` for an absent or empty list, and finally
`gameStarted = true`. -/
theorem c3_restore_applies_in_order (gd : GameLoadData) (s : GameState) :
    (restorePendingGame gd s).gameStarted = true ∧
    (restorePendingGame gd s).roundId = gd.roundId ∧
    (∀ m, gd.revealedMatrix = some m →
      (restorePendingGame gd s).game_matrix = m) ∧
    (∀ g, gd.gridOption = some g → g ≠ "" →
      (restorePendingGame gd s).total_cols = (parseGridOption g).1 ∧
      (restorePendingGame gd s).total_rows = (parseGridOption g).2) ∧
    (∀ b, gd.betAmount = some b → b ≠ 0 →
      (restorePendingGame gd s).stakeAmount = b) ∧
    (∀ r, gd.currentRow = some r →
      (restorePendingGame gd s).current_row
        = jsSub (jsSub (restorePendingGame gd s).total_rows (some 1))
            (some r)) ∧
    (∀ l, gd.rowRewards = some l → l ≠ [] →
      (restorePendingGame gd s).reward = l.getLast?.getD 0) ∧
    (gd.rowRewards = none ∨ gd.rowRewards = some [] →
      (restorePendingGame gd s).reward = 0) := by
  have htail := restoreTail_proj (calculatedReward gd)
    (restoreRowStep gd
      (setRoundId gd.roundId
        (restoreBetStep gd (restoreGridStep gd (restoreMatrixStep gd s)))))
  simp only [restorePendingGame]
  refine ⟨htail.1, ?_, ?_, ?_, ?_, ?_, ?_, ?_⟩
  · exact (htail.2.2.2.2.2.2.1).trans
      ((restoreRowStep_preserves gd _).2.2.2.2)
  · intro m hm
    exact ((htail.2.2.1).trans
      (((restoreRowStep_preserves gd _).1).trans
        (((restoreBetStep_preserves gd _).1).trans
          ((restoreGridStep_game_matrix gd _).trans
            (restoreMatrixStep_sets gd s m hm)))))
  · intro g hg hne
    constructor
    · exact ((htail.2.2.2.1).trans
        (((restoreRowStep_preserves gd _).2.1).trans
          (((restoreBetStep_preserves gd _).2.1).trans
            ((restoreGridStep_sets gd _ g hg hne).1))))
    · exact ((htail.2.2.2.2.1).trans
        (((restoreRowStep_preserves gd _).2.2.1).trans
          (((restoreBetStep_preserves gd _).2.2).trans
            ((restoreGridStep_sets gd _ g hg hne).2))))
  · intro b hb hbne
    exact ((htail.2.2.2.2.2.1).trans
      (((restoreRowStep_preserves gd _).2.2.2.1).trans
        (restoreBetStep_sets gd _ b hb hbne)))
  · intro r hr
    have hrow := (htail.2.2.2.2.2.2.2).trans (restoreRowStep_sets gd _ r hr)
    have hrows := (htail.2.2.2.2.1).trans ((restoreRowStep_preserves gd _).2.2.1)
    rw [hrow, hrows]
  · intro l hl hlne
    refine (htail.2.1).trans ?_
    simp only [calculatedReward, hl]
    rw [if_pos (List.length_pos.mpr hlne)]
  · intro h
    refine (htail.2.1).trans ?_
    rcases h with h | h <;> simp [calculatedReward, h]

/-- C3 witness: restoring the full payload against the default store
yields cols 5, rows 6, current row 6 − 1 − 2 = 3, round id, stake,
matrix, reward 35 and a started game; without the grid encoding the
default 6 rows give current row 3 as well, and an empty reward list
yields reward 0. -/
theorem c3_restore_applies_in_order_witness :
    (restorePendingGame c3Response initialGameState).total_cols = some 5 ∧
    (restorePendingGame c3Response initialGameState).total_rows = some 6 ∧
    (restorePendingGame c3Response initialGameState).current_row = some 3 ∧
    (restorePendingGame c3Response initialGameState).roundId
      = some "ROUND-1" ∧
    (restorePendingGame c3Response initialGameState).stakeAmount = 1 ∧
    (restorePendingGame c3Response initialGameState).game_matrix
      = [["G", "S"], ["S", "G"]] ∧
    (restorePendingGame c3Response initialGameState).reward = 35 ∧
    (restorePendingGame c3Response initialGameState).gameStarted = true ∧
    (restorePendingGame c3NoGrid initialGameState).current_row = some 3 ∧
    (restorePendingGame c3NoRewards initialGameState).reward = 0 := by
  have h := c3_restore_applies_in_order c3Response initialGameState
  have h2 := c3_restore_applies_in_order c3NoGrid initialGameState
  have h3 := c3_restore_applies_in_order c3NoRewards initialGameState
  refine ⟨(h.2.2.2.1 "5x6" rfl (by decide)).1.trans rfl,
          (h.2.2.2.1 "5x6" rfl (by decide)).2.trans rfl,
          (h.2.2.2.2.2.1 2 rfl).trans rfl,
          h.2.1.trans rfl,
          h.2.2.2.2.1 1 rfl (by decide),
          h.2.2.1 [["G", "S"], ["S", "G"]] rfl,
          (h.2.2.2.2.2.2.1 [10, 20, 35] rfl (by decide)).trans rfl,
          h.1,
          (h2.2.2.2.2.2.1 2 rfl).trans rfl,
          h3.2.2.2.2.2.2.2 (Or.inr rfl)⟩

/-- An `operation:"info"` frame carrying a bet-step amounts array. -/
def infoFrame : Json :=
  jobjOf [("operation", .jstr "info"),
          ("mineSweeperAmounts", jarrOf [.jnum 10, .jnum 20, .jnum 35])]

/-- A service with an application handler registered for "info". -/
def c6Svc : SvcState := wsOn freshSvc "info" (.plain 3)

/-- C6: evaluation at the failing input.  The frame satisfies the `info`
interception test, but the `GlobalState` store exports no `setBetSteps`
member, so the interception throws and the `onmessage` catch block
swallows the frame: the only state change is the error log — no bet
steps are stored anywhere and not even the registered "info" handler
runs. -/
theorem c6_infoFrame_discarded :
    isInfoIntercept infoFrame = true ∧
    mapGet c6Svc.listeners "info" = some (.plain 3) ∧
    onMessage (fun _ => false) infoFrame c6Svc
      = { c6Svc with invalidLogged := c6Svc.invalidLogged + 1 } :=
  ⟨rfl, rfl, rfl⟩

/-- C8: `setGameStarted` stores the flag; it fires the game-started
listeners (in registration order) exactly on a false→true transition,
the game-ended listeners exactly on a true→false transition, and no
listener when the stored value does not change. -/
theorem c8_setGameStarted_signals (s : GameState) (b : Bool) :
    (setGameStarted b s).gameStarted = b ∧
    (b = true → s.gameStarted = false →
      (setGameStarted b s).invoked = s.invoked ++ s.gameStartedListeners) ∧
    (b = false → s.gameStarted = true →
      (setGameStarted b s).invoked = s.invoked ++ s.gameEndedListeners) ∧
    (b = s.gameStarted → (setGameStarted b s).invoked = s.invoked) := by
  cases b <;> cases hs : s.gameStarted <;> simp [setGameStarted, hs]

/-- Store with game-started listeners 1 then 2 and game-ended listener 5. -/
def c8State : GameState :=
  addGameEndedListener 5
    (addGameStartedListener 2 (addGameStartedListener 1 initialGameState))

/-- C8 witness: starting fires [1, 2] in registration order; a second
`setGameStarted(true)` fires nothing more; ending then fires 5. -/
theorem c8_setGameStarted_signals_witness :
    (setGameStarted true c8State).invoked = [1, 2] ∧
    (setGameStarted true (setGameStarted true c8State)).invoked = [1, 2] ∧
    (setGameStarted false (setGameStarted true c8State)).invoked = [1, 2, 5] := by
  refine ⟨?_, ?_, ?_⟩
  · have h := (c8_setGameStarted_signals c8State true).2.1 rfl rfl
    rw [h]; rfl
  · have h := (c8_setGameStarted_signals (setGameStarted true c8State) true).2.2.2
      (by rfl)
    rw [h]
    have h2 := (c8_setGameStarted_signals c8State true).2.1 rfl rfl
    rw [h2]; rfl
  · have h := (c8_setGameStarted_signals (setGameStarted true c8State) false).2.2.1
      rfl (by rfl)
    rw [h]; rfl

/-- C2: every `send` made while the connection is not open appends one
entry to the outbound queue and transmits nothing; the open transition
then transmits exactly the queued payloads, serialized in the original
call order, and leaves the queue empty. -/
theorem c2_send_queues_and_open_flushes (st : SvcState)
    (msgs : List (String × Json))
    (h : (st.isConnected && st.socketOpen) = false) :
    (sendAll st msgs).queue = st.queue ++ msgs ∧
    (sendAll st msgs).transmitted = st.transmitted ∧
    (onOpen (sendAll st msgs)).queue = [] ∧
    (onOpen (sendAll st msgs)).transmitted =
      st.transmitted ++ (st.queue ++ msgs).map (fun m => jsonStringify m.2) := by
  have hA := sendAll_closed msgs st h
  rw [hA, onOpen_spec]
  exact ⟨rfl, rfl, rfl, rfl⟩

/-- Two commands issued before the connection opens. -/
def c2Msgs : List (String × Json) :=
  [("getbalance", jobjOf [("operation", .jstr "getbalance")]),
   ("minesweeper_game_load",
    jobjOf [("operation", .jstr "minesweeper_game_load")])]

/-- C2 witness: on a fresh (not yet open) service the two sends queue
without transmitting, and the open transition transmits both serialized
payloads in order and empties the queue. -/
theorem c2_send_queues_and_open_flushes_witness :
    (sendAll freshSvc c2Msgs).queue = c2Msgs ∧
    (sendAll freshSvc c2Msgs).transmitted = [] ∧
    (onOpen (sendAll freshSvc c2Msgs)).queue = [] ∧
    (onOpen (sendAll freshSvc c2Msgs)).transmitted =
      ["\x7b\"operation\":\"getbalance\"\x7d",
       "\x7b\"operation\":\"minesweeper_game_load\"\x7d"] := by
  have h := c2_send_queues_and_open_flushes freshSvc c2Msgs rfl
  refine ⟨?_, h.2.1, h.2.2.1, ?_⟩
  · rw [h.1]; rfl
  · rw [h.2.2.2]; rfl

/-- C9: with the connection open, `send` transmits exactly the JSON
serialization of its `data` argument; the `event` argument plays no part
in the transmission, so two sends with equal data and different events
produce identical states and identical frames, and leave the queue
untouched. -/
theorem c9_send_ignores_event (st : SvcState) (e1 e2 : String) (d : Json)
    (hc : st.isConnected = true) (ho : st.socketOpen = true) :
    wsSend st e1 d = wsSend st e2 d ∧
    (wsSend st e1 d).transmitted = st.transmitted ++ [jsonStringify d] ∧
    (wsSend st e1 d).queue = st.queue := by
  simp [wsSend, hc, ho]

/-- An open connection. -/
def openSvc : SvcState :=
  { freshSvc with isConnected := true, socketOpen := true }

/-- A payload sent under two different event keys. -/
def c9Data : Json :=
  jobjOf [("operation", .jstr "start"), ("amount", .jnum 5)]

/-- C9 witness: the frames transmitted under the keys "eventA" and
"eventB" for the same payload are the same serialized string. -/
theorem c9_send_ignores_event_witness :
    wsSend openSvc "eventA" c9Data = wsSend openSvc "eventB" c9Data ∧
    (wsSend openSvc "eventA" c9Data).transmitted =
      ["\x7b\"operation\":\"start\",\"amount\":5\x7d"] := by
  have h := c9_send_ignores_event openSvc "eventA" "eventB" c9Data rfl rfl
  exact ⟨h.1, by rw [h.2.1]; rfl⟩

/-- C4: for a `"200 OK"` response with an existing game, exhaustion
(reported row at or beyond `totalRows - 1`, or an explicit game-over
flag) forces the no-pending-game outcome regardless of the round id,
an invalid round id likewise forces it, and restoration runs exactly
when the round id is valid and the game is not exhausted. -/
theorem c4_exhaustion_blocks_restore (res : GameLoadData) (s : GameState)
    (hst : res.status = some "200 OK")
    (hex : res.hasExistingGame = some true) :
    (isGameCompletedJs res s = true → checkForPendingGames res s = (false, s)) ∧
    (hasValidRoundIdJs res = false → checkForPendingGames res s = (false, s)) ∧
    ((checkForPendingGames res s).1 = true ↔
      isGameCompletedJs res s = false ∧ hasValidRoundIdJs res = true) ∧
    (isGameCompletedJs res s = false → hasValidRoundIdJs res = true →
      checkForPendingGames res s = (true, restorePendingGame res s)) := by
  have hred : checkForPendingGames res s =
      if isGameCompletedJs res s || !hasValidRoundIdJs res then (false, s)
      else (true, restorePendingGame res s) := by
    simp [checkForPendingGames, hst, hex]
  rw [hred]
  cases hcg : isGameCompletedJs res s <;> cases hvr : hasValidRoundIdJs res <;>
    simp

/-- A pending round reported on its last playable row. -/
def c4Exhausted : GameLoadData :=
  { status := some "200 OK", hasExistingGame := some true,
    currentRow := some 5, roundId := some "ROUND-9" }

/-- A pending round with an explicit game-over flag. -/
def c4GameOver : GameLoadData :=
  { status := some "200 OK", hasExistingGame := some true,
    currentRow := some 3, gameOver := some true, roundId := some "ROUND-9" }

/-- A genuinely active pending round. -/
def c4Active : GameLoadData :=
  { status := some "200 OK", hasExistingGame := some true,
    currentRow := some 2, roundId := some "ROUND-9" }

/-- C4 witness: with the default 6-row store, reported row 5 is
exhausted despite its non-empty round id, row 3 with `gameOver = true`
is exhausted too, and row 2 restores. -/
theorem c4_exhaustion_blocks_restore_witness :
    checkForPendingGames c4Exhausted initialGameState
      = (false, initialGameState) ∧
    checkForPendingGames c4GameOver initialGameState
      = (false, initialGameState) ∧
    checkForPendingGames c4Active initialGameState
      = (true, restorePendingGame c4Active initialGameState) :=
  ⟨(c4_exhaustion_blocks_restore c4Exhausted initialGameState rfl rfl).1 rfl,
   (c4_exhaustion_blocks_restore c4GameOver initialGameState rfl rfl).1 rfl,
   (c4_exhaustion_blocks_restore c4Active initialGameState rfl rfl).2.2.2 rfl rfl⟩

/-- C5: a frame whose nested `data.status` is the session-expiry string
is fully short-circuited: when the host's logout hook exists it is
invoked exactly once and nothing else changes — in particular no
registered handler is invoked and the listener table is untouched; when
the hook is absent the frame is simply discarded. -/
theorem c5_expiry_short_circuit (thr : Nat → Bool) (msg : Json)
    (st : SvcState) (d : Json)
    (hd : jsGetField msg "data" = some d)
    (ht : jsTruthy d = true)
    (hs : jsGetField d "status" = some (.jstr "401 Session Expired")) :
    (st.logoutAvailable = true →
      onMessage thr msg st = { st with logoutCalls := st.logoutCalls + 1 }) ∧
    (st.logoutAvailable = false → onMessage thr msg st = st) := by
  have hexp : isExpiryFrame msg = true := by
    simp [isExpiryFrame, hd, ht, hs]
  cases msg with
  | jobj fields =>
      constructor <;> intro hl <;> simp [onMessage, hexp, hl]
  | jnull => simp [jsGetField] at hd
  | jbool b => simp [jsGetField] at hd
  | jnum n => simp [jsGetField] at hd
  | jstr s2 => simp [jsGetField] at hd
  | jarr xs => simp [jsGetField] at hd

/-- A session-expiry frame whose implied dispatch key is "result". -/
def expiryFrame : Json :=
  jobjOf [("operation", .jstr "result"),
          ("data", jobjOf [("status", .jstr "401 Session Expired")])]

/-- A service with an application handler registered for "result". -/
def c5Svc : SvcState := wsOn freshSvc "result" (.plain 9)

/-- C5 witness: even with a handler registered for the frame's key, the
expiry frame only bumps the logout counter. -/
theorem c5_expiry_short_circuit_witness :
    mapGet c5Svc.listeners "result" = some (.plain 9) ∧
    dispatchKey expiryFrame = some "result" ∧
    onMessage (fun _ => false) expiryFrame c5Svc
      = { c5Svc with logoutCalls := c5Svc.logoutCalls + 1 } := by
  refine ⟨rfl, rfl, ?_⟩
  exact (c5_expiry_short_circuit (fun _ => false) expiryFrame c5Svc
    (jobjOf [("status", .jstr "401 Session Expired")]) rfl rfl rfl).1 rfl

/-- C7: registering `h1` then `h2` for the same key leaves `h2` as the
key's only handler; delivering any frame never invokes `h1` (provided
`h1` was registered nowhere else), and a frame that reaches dispatch
with that key invokes exactly `h2` with the frame's payload. -/
theorem c7_on_single_slot (st : SvcState) (k : String) (id1 id2 : Nat)
    (thr : Nat → Bool) (msg : Json)
    (hfresh : ∀ k2 h, mapGet st.listeners k2 = some h → handlerId h ≠ id1)
    (hne : id2 ≠ id1) :
    mapGet (wsOn (wsOn st k (.plain id1)) k (.plain id2)).listeners k
      = some (.plain id2) ∧
    (∀ p ∈ (onMessage thr msg
        (wsOn (wsOn st k (.plain id1)) k (.plain id2))).calls,
      p ∈ st.calls ∨ p.1 ≠ id1) ∧
    (isExpiryFrame msg = false → isInfoIntercept msg = false →
      dispatchKey msg = some k →
      (onMessage thr msg (wsOn (wsOn st k (.plain id1)) k (.plain id2))).calls
        = st.calls ++ [(id2, payloadOf msg)]) := by
  have hget : ∀ k2,
      mapGet (wsOn (wsOn st k (.plain id1)) k (.plain id2)).listeners k2 =
        if k2 = k then some (.plain id2) else mapGet st.listeners k2 := by
    intro k2
    show mapGet (mapSet (mapSet st.listeners k (.plain id1)) k (.plain id2)) k2
        = _
    rw [mapGet_mapSet, mapGet_mapSet]
    by_cases h : k2 = k <;> simp [h]
  have hgk : mapGet (wsOn (wsOn st k (.plain id1)) k (.plain id2)).listeners k
      = some (.plain id2) := by
    rw [hget k]; simp
  refine ⟨hgk, ?_, ?_⟩
  · intro p hp
    rcases onMessage_calls_cases thr msg
        (wsOn (wsOn st k (.plain id1)) k (.plain id2)) with hc | ⟨k0, h0, hk0, hh0, hc⟩
    · rw [hc] at hp
      exact Or.inl hp
    · rw [hc] at hp
      rcases List.mem_append.mp hp with hp | hp
      · exact Or.inl hp
      · rw [List.mem_singleton] at hp
        subst hp
        right
        show handlerId h0 ≠ id1
        rw [hget k0] at hh0
        by_cases hkk : k0 = k
        · rw [if_pos hkk] at hh0
          cases hh0
          simpa [handlerId] using hne
        · rw [if_neg hkk] at hh0
          exact hfresh k0 h0 hh0
  · intro hexp hinfo hk
    cases msg with
    | jobj fields =>
        have hred : onMessage thr (Json.jobj fields)
            (wsOn (wsOn st k (.plain id1)) k (.plain id2))
            = invokeHandler thr (.plain id2) (payloadOf (Json.jobj fields))
                (wsOn (wsOn st k (.plain id1)) k (.plain id2)) := by
          simp [onMessage, hexp, hinfo, hk, hgk]
        rw [hred, invokeHandler_calls]
        rfl
    | jnull => simp [dispatchKey, jsGetField] at hk
    | jbool b => simp [dispatchKey, jsGetField] at hk
    | jnum n => simp [dispatchKey, jsGetField] at hk
    | jstr s2 => simp [dispatchKey, jsGetField] at hk
    | jarr xs => simp [dispatchKey, jsGetField] at hk

/-- A frame whose dispatch key is "k". -/
def c7Frame : Json := jobjOf [("event", .jstr "k"), ("data", .jnum 5)]

/-- C7 witness: after registering callbacks 1 then 2 for "k", the table
holds callback 2, and delivering the frame invokes only callback 2. -/
theorem c7_on_single_slot_witness :
    mapGet (wsOn (wsOn freshSvc "k" (.plain 1)) "k" (.plain 2)).listeners "k"
      = some (.plain 2) ∧
    (onMessage (fun _ => false) c7Frame
        (wsOn (wsOn freshSvc "k" (.plain 1)) "k" (.plain 2))).calls
      = [(2, Json.jnum 5)] ∧
    (∀ p ∈ (onMessage (fun _ => false) c7Frame
        (wsOn (wsOn freshSvc "k" (.plain 1)) "k" (.plain 2))).calls,
      p.1 ≠ 1) := by
  have h := c7_on_single_slot freshSvc "k" 1 2 (fun _ => false) c7Frame
    (by intro k2 h2 hh; simp [freshSvc, mapGet] at hh) (by decide)
  refine ⟨h.1, ?_, ?_⟩
  · have h3 := h.2.2 rfl rfl rfl
    rw [h3]; rfl
  · intro p hp
    rcases h.2.1 p hp with hin | hne
    · simp [freshSvc] at hin
    · exact hne

/-- Helper: dispatching a frame to a registered `once` wrapper whose
callback throws records the invocation, logs the caught error and —
because the `off` step never runs — leaves the listener table as it
was. -/
theorem onMessage_throwing_once (thr : Nat → Bool)
    (fields : JsonFields) (st : SvcState) (k : String) (id : Nat)
    (hexp : isExpiryFrame (Json.jobj fields) = false)
    (hinfo : isInfoIntercept (Json.jobj fields) = false)
    (hk : dispatchKey (Json.jobj fields) = some k)
    (hg : mapGet st.listeners k = some (.onceWrap id k))
    (hthr : thr id = true) :
    onMessage thr (Json.jobj fields) st
      = { st with calls := st.calls ++ [(id, payloadOf (Json.jobj fields))],
                  invalidLogged := st.invalidLogged + 1 } := by
  simp [onMessage, hexp, hinfo, hk, hg, invokeHandler, hthr]

/-- C10: when the callback wrapped by `once(k, cb)` throws on its first
invocation, the wrapper's self-unregistration is skipped: the wrapper
stays registered for `k`, a second frame with key `k` invokes the
callback again, and only a normally-returning callback leads to the
wrapper's removal. -/
theorem c10_once_throwing_stays (st : SvcState) (k : String) (id : Nat)
    (thr : Nat → Bool) (msg : Json)
    (hthr : thr id = true)
    (hk : dispatchKey msg = some k)
    (hexp : isExpiryFrame msg = false)
    (hinfo : isInfoIntercept msg = false)
    (hnd : (st.listeners.map Prod.fst).Nodup) :
    mapGet (wsOnce st k id).listeners k = some (.onceWrap id k) ∧
    (onMessage thr msg (wsOnce st k id)).calls
      = st.calls ++ [(id, payloadOf msg)] ∧
    (onMessage thr msg (wsOnce st k id)).listeners
      = (wsOnce st k id).listeners ∧
    (onMessage thr msg (onMessage thr msg (wsOnce st k id))).calls
      = st.calls ++ [(id, payloadOf msg), (id, payloadOf msg)] ∧
    (∀ thr2 : Nat → Bool, thr2 id = false →
      mapGet (onMessage thr2 msg (wsOnce st k id)).listeners k = none) := by
  have hg1 : mapGet (wsOnce st k id).listeners k = some (.onceWrap id k) := by
    show mapGet (mapSet st.listeners k (.onceWrap id k)) k = _
    rw [mapGet_mapSet]
    simp
  cases msg with
  | jobj fields =>
      have e1 := onMessage_throwing_once thr fields (wsOnce st k id) k id
        hexp hinfo hk hg1 hthr
      refine ⟨hg1, ?_, ?_, ?_, ?_⟩
      · rw [e1]; rfl
      · rw [e1]
      · rw [e1]
        have e2 := onMessage_throwing_once thr fields
          { wsOnce st k id with
              calls := (wsOnce st k id).calls
                ++ [(id, payloadOf (Json.jobj fields))],
              invalidLogged := (wsOnce st k id).invalidLogged + 1 }
          k id hexp hinfo hk (by exact hg1) hthr
        rw [e2]
        simp [wsOnce, wsOn]
      · intro thr2 hthr2
        have e3 : onMessage thr2 (Json.jobj fields) (wsOnce st k id)
            = { wsOnce st k id with
                  calls := (wsOnce st k id).calls
                    ++ [(id, payloadOf (Json.jobj fields))],
                  listeners := mapDelete (wsOnce st k id).listeners k } := by
          simp [onMessage, hexp, hinfo, hk, hg1, invokeHandler, hthr2]
        rw [e3]
        exact mapGet_mapDelete_self _ k
          (keysNodup_mapSet st.listeners k (.onceWrap id k) hnd)
  | jnull => simp [dispatchKey, jsGetField] at hk
  | jbool b => simp [dispatchKey, jsGetField] at hk
  | jnum n => simp [dispatchKey, jsGetField] at hk
  | jstr s2 => simp [dispatchKey, jsGetField] at hk
  | jarr xs => simp [dispatchKey, jsGetField] at hk

/-- A frame whose dispatch key is "spin". -/
def c10Frame : Json := jobjOf [("event", .jstr "spin"), ("data", .jnum 1)]

/-- C10 witness: with a throwing callback 4 registered via `once` for
"spin", the first frame invokes it, the wrapper stays registered, the
second frame invokes it again; with a normally-returning callback the
wrapper is removed after the first frame. -/
theorem c10_once_throwing_stays_witness :
    mapGet (wsOnce freshSvc "spin" 4).listeners "spin"
      = some (.onceWrap 4 "spin") ∧
    (onMessage (fun _ => true) c10Frame (wsOnce freshSvc "spin" 4)).calls
      = [(4, Json.jnum 1)] ∧
    (onMessage (fun _ => true) c10Frame
        (onMessage (fun _ => true) c10Frame (wsOnce freshSvc "spin" 4))).calls
      = [(4, Json.jnum 1), (4, Json.jnum 1)] ∧
    mapGet (onMessage (fun _ => false) c10Frame
        (wsOnce freshSvc "spin" 4)).listeners "spin" = none := by
  have h := c10_once_throwing_stays freshSvc "spin" 4 (fun _ => true) c10Frame
    rfl rfl rfl rfl (by simp [freshSvc])
  refine ⟨h.1, ?_, ?_, h.2.2.2.2 (fun _ => false) rfl⟩
  · rw [h.2.1]; rfl
  · rw [h.2.2.2.1]; rfl
